import Mathlib

/-!
Verification of the War-Room multi-agent RCA system core: incident store,
specialist dispatcher, judge synthesizer, and the War Room frontend's
consumption of their results. The frontend (`ChaosSimulator.tsx`, `App.tsx`)
is embedded from the TypeScript source; the Python backend components
(judge, dispatcher, incident store) are not part of the available sources,
so they are modelled from the specification, as marked on each definition.
-/

/-- Incident / payload source category (`'Network' | 'Database' | 'Code'`). -/
inductive Category where
  | Network
  | Database
  | Code
deriving DecidableEq, Repr

/-- Incident severity (`'CRITICAL' | 'WARNING' | 'INFO'`). -/
inductive Severity where
  | CRITICAL
  | WARNING
  | INFO
deriving DecidableEq, Repr

/-- Specialist-finding status. `Critical | Warning | Healthy` as in the
frontend `AgentAnalysis` interface; `Unknown` is the degraded status produced
when a specialist call exhausts its retries (spec §4.3: `unknown/error`). -/
inductive Status where
  | Critical
  | Warning
  | Healthy
  | Unknown
deriving DecidableEq, Repr

/-- An incident record: category, alert name, severity, named log channels,
and reception timestamp (seconds; the store keeps wall-clock strings, the
model keeps the instant as a number). -/
structure Incident where
  id : Nat
  category : Category
  alert_name : String
  severity : Severity
  logs : List (String × String)
  received_at : Nat
deriving DecidableEq, Repr

/-- A specialist finding as produced per dispatch round per category
(spec §3 `SpecialistFinding`; frontend `AgentAnalysis`). -/
structure SpecialistFinding where
  agent_name : String
  category : Category
  status : Status
  hypothesis : String
  confidence : ℚ
  evidence : List String
  reasoning : String
  timestamp : Nat
deriving DecidableEq, Repr

/-- Modelled from the spec: the Verdict record of §3,
`{root_cause_headline, causal_explanation, remediation_plan}` (the judge
component producing it is not among the available sources). -/
structure Verdict where
  root_cause_headline : String
  causal_explanation : String
  remediation_plan : String
deriving DecidableEq, Repr

/-- Judge-level error (§7): raised when the judge is invoked with zero
findings. -/
inductive JudgeError where
  | InsufficientEvidenceError
deriving DecidableEq, Repr

/-- Modelled from the spec: the causal-precedence hierarchy
Code > Database > Network (§4.4) as a rank, lower rank = higher precedence. -/
def precedenceRank : Category → Nat
  | Category.Code => 0
  | Category.Database => 1
  | Category.Network => 2

/-- Human-readable category name, as displayed by the frontend. -/
def categoryName : Category → String
  | Category.Network => "Network"
  | Category.Database => "Database"
  | Category.Code => "Code"

/-- Modelled from the spec: the earliest observed timestamp across all
findings (§4.4 step 1); the base point of the reconstructed T+k timeline. -/
def earliestTimestamp : List SpecialistFinding → Nat
  | [] => 0
  | f :: fs => fs.foldl (fun m g => min m g.timestamp) f.timestamp

/-- Modelled from the spec: a finding's relative offset from the earliest
observed timestamp (§4.4 step 1). -/
def relOffset (t0 : Nat) (f : SpecialistFinding) : Nat :=
  f.timestamp - t0

/-- Modelled from the spec: the first-mover comparison of §4.4 step 2 —
`f` beats `g` when its relative offset is strictly smaller, or the offsets
tie exactly and `f`'s category has strictly higher causal precedence. -/
def firstMoverBetter (t0 : Nat) (f g : SpecialistFinding) : Bool :=
  if relOffset t0 f < relOffset t0 g then true
  else if relOffset t0 f = relOffset t0 g then
    decide (precedenceRank f.category < precedenceRank g.category)
  else false

/-- Modelled from the spec: deterministic selection of the best root-cause
candidate from a candidate list — a left fold that replaces the current best
only when a later candidate is strictly better under `firstMoverBetter`. -/
def pickRootCause (t0 : Nat) : List SpecialistFinding → Option SpecialistFinding
  | [] => none
  | f :: fs => some (fs.foldl (fun best g => if firstMoverBetter t0 g best then g else best) f)

/-- Modelled from the spec: root-cause candidates are the findings carrying
Critical status (§4.4 step 2; Healthy findings are exonerating and excluded,
§4.4 step 3). -/
def criticalFindings (fs : List SpecialistFinding) : List SpecialistFinding :=
  fs.filter (fun f => f.status = Status.Critical)

/-- Modelled from the spec: the judge's root-cause selection — the Critical
finding with the smallest relative offset from the earliest observed
timestamp, exact offset ties resolved by causal precedence (§4.4). -/
def rootCauseOf (fs : List SpecialistFinding) : Option SpecialistFinding :=
  pickRootCause (earliestTimestamp fs) (criticalFindings fs)

/-- Modelled from the spec: a "T+k" description of one finding, citing its
offset on the reconstructed timeline. -/
def offsetDescription (t0 : Nat) (f : SpecialistFinding) : String :=
  categoryName f.category ++ " at T+" ++ toString (relOffset t0 f) ++ "s"

/-- Modelled from the spec: the verdict headline names the chosen trigger
finding's category and hypothesis. -/
def mkHeadline : Option SpecialistFinding → String
  | some f => "Root cause: " ++ categoryName f.category ++ " - " ++ f.hypothesis
  | none => "No critical trigger identified"

/-- Modelled from the spec: the causal explanation states which event is the
trigger and cites every finding's offset (§4.4 step 4). -/
def mkExplanation (fs : List SpecialistFinding) (rc : Option SpecialistFinding) : String :=
  let t0 := earliestTimestamp fs
  let parts := String.intercalate ", " (fs.map (offsetDescription t0))
  match rc with
  | some f => "Trigger: " ++ offsetDescription t0 f ++ "; observed: " ++ parts
  | none => "No critical trigger; observed: " ++ parts

/-- Modelled from the spec: the remediation plan is scoped to the mechanism
named in the chosen finding's hypothesis (§4.4 step 4). -/
def mkRemediation : Option SpecialistFinding → String
  | some f => "Remediate: " ++ f.hypothesis
  | none => "Collect more evidence before remediation"

/-- Modelled from the spec: `synthesize(findings) -> Verdict`, failing with
`InsufficientEvidenceError` exactly when invoked with zero findings (§4.4,
§7); otherwise builds the verdict around the selected root cause. -/
def synthesize (fs : List SpecialistFinding) : Except JudgeError Verdict :=
  if fs.isEmpty then Except.error JudgeError.InsufficientEvidenceError
  else
    let rc := rootCauseOf fs
    Except.ok
      { root_cause_headline := mkHeadline rc
      , causal_explanation := mkExplanation fs rc
      , remediation_plan := mkRemediation rc }

/-- Modelled from the spec: the Incident Store's category lookup
(`activeByCategory`, §4.2) — returns exactly the stored incidents whose
category equals `c`, insertion order preserved. The store itself is the
ordered list of active incidents. -/
def activeByCategory (store : List Incident) (c : Category) : List Incident :=
  store.filter (fun i => i.category = c)

/-- Modelled from the spec: `clearCategory(category) -> count` (§4.2) —
removes the incidents of the given category, returning how many were
cleared. -/
def clearCategory (store : List Incident) (c : Category) : Nat × List Incident :=
  ((activeByCategory store c).length, store.filter (fun i => ¬ i.category = c))

/-- Modelled from the spec: `clearAll() -> count` (§4.2) — removes every
active incident, returning how many were cleared. -/
def clearAll (store : List Incident) : Nat × List Incident :=
  (store.length, [])

/-- The log texts of one incident (the values of its log-channel mapping). -/
def incidentLogTexts (i : Incident) : List String :=
  i.logs.map Prod.snd

/-- Modelled from the spec: the evidence bundle the dispatcher builds for a
category — the log texts of exactly the incidents the Store's category
lookup returns (§4.2, §4.3). -/
def evidenceBundle (store : List Incident) (c : Category) : List String :=
  (activeByCategory store c).flatMap incidentLogTexts

/-- Modelled from the spec: one attempt's outcome at the reasoning-oracle
boundary (§6): either a structured response — status, hypothesis,
confidence, cited evidence given as indices into the supplied bundle,
reasoning — or a failure (unreachable / timeout / schema violation). -/
inductive OracleOutcome where
  | ok (status : Status) (hypothesis : String) (confidence : ℚ)
      (cited : List Nat) (reasoning : String)
  | fail (description : String)
deriving DecidableEq, Repr

/-- Modelled from the spec: retry with a bounded attempt ceiling (§4.3) —
attempts are tried in order until one succeeds; when the budget is
exhausted every outcome was a failure and the call degrades. -/
def retryOracle (attemptOutcome : Nat → OracleOutcome) : Nat → Nat → OracleOutcome
  | _, 0 => OracleOutcome.fail "retry budget exhausted"
  | attempt, budget + 1 =>
    match attemptOutcome attempt with
    | OracleOutcome.ok s h c cited r => OracleOutcome.ok s h c cited r
    | OracleOutcome.fail _ => retryOracle attemptOutcome (attempt + 1) budget

/-- The specialist agent bound to each category (README: DBA Agent, Network
Engineer Agent, Code Auditor Agent). -/
def agentNameFor : Category → String
  | Category.Network => "Network Engineer Agent"
  | Category.Database => "DBA Agent"
  | Category.Code => "Code Auditor Agent"

/-- Modelled from the spec: the finding the dispatcher produces for one
category (§4.3) — on oracle success, the structured response with the cited
evidence resolved against the category's own bundle; on exhausted retries,
the degraded finding `{status: unknown/error, confidence: 0, reasoning:
failure description}`. -/
def findingFor (store : List Incident) (oracle : Category → Nat → OracleOutcome)
    (budget : Nat) (now : Nat) (c : Category) : SpecialistFinding :=
  let bundle := evidenceBundle store c
  match retryOracle (oracle c) 0 budget with
  | OracleOutcome.ok s h conf cited r =>
    { agent_name := agentNameFor c
    , category := c
    , status := s
    , hypothesis := h
    , confidence := conf
    , evidence := cited.filterMap (fun idx => bundle.get? idx)
    , reasoning := r
    , timestamp := now }
  | OracleOutcome.fail d =>
    { agent_name := agentNameFor c
    , category := c
    , status := Status.Unknown
    , hypothesis := "analysis unavailable"
    , confidence := 0
    , evidence := []
    , reasoning := d
    , timestamp := now }

/-- Modelled from the spec: the deterministic category order in which
dispatch results are returned (§4.3: e.g. Network, Database, Code). -/
def categoryOrder : List Category :=
  [Category.Network, Category.Database, Category.Code]

/-- Modelled from the spec: the categories in scope for a dispatch round —
all categories when forced, otherwise those with active incidents (§4.3). -/
def scopeFor (store : List Incident) (forceAll : Bool) : List Category :=
  if forceAll then categoryOrder
  else categoryOrder.filter (fun c => ¬ activeByCategory store c = [])

/-- Modelled from the spec: the Specialist Dispatcher's
`analyze(activeCategories, forceAll) -> ordered sequence of
SpecialistFinding` (§4.3) — one finding per category in scope, in the
deterministic category order. -/
def analyze (store : List Incident) (oracle : Category → Nat → OracleOutcome)
    (budget : Nat) (forceAll : Bool) (now : Nat) : List SpecialistFinding :=
  (scopeFor store forceAll).map (findingFor store oracle budget now)

/-- An agent analysis as held in the War Room component's state
(`AgentAnalysis` interface, ChaosSimulator.tsx). -/
structure AgentAnalysisUI where
  agent_name : String
  status : Status
  hypothesis : String
  confidence : ℚ
  evidence : List String
  reasoning : String
  timestamp : Nat
deriving DecidableEq, Repr

/-- One agent entry of the `/api/troubleshoot` response as the frontend
reads it (`result.agent_results`, ChaosSimulator.tsx lines 479-487). -/
structure ApiAgentResult where
  agent_name : String
  status : Status
  hypothesis : String
  confidence_score : ℚ
  evidence_cited : List String
  reasoning : String
  timestamp : Nat
deriving DecidableEq, Repr

/-- The judge-verdict object of the `/api/troubleshoot` response with the
fields the frontend reads from it (ChaosSimulator.tsx lines 493-495). -/
structure ApiJudgeVerdict where
  root_cause_headline : String
  scenarios_logic : String
  remediation_plan : String
deriving DecidableEq, Repr

/-- The `/api/troubleshoot` response shape the frontend consumes:
`agent_results` always, then either `judge_verdict` or `judge_error`
(ChaosSimulator.tsx lines 479-499). -/
structure TroubleshootResponse where
  agent_results : List ApiAgentResult
  judge_verdict : Option ApiJudgeVerdict
  judge_error : Option String
deriving DecidableEq, Repr

/-- The verdict as held in the War Room component's state
(`judgeVerdict`, ChaosSimulator.tsx lines 353-357). -/
structure UIVerdict where
  rootCause : String
  explanation : String
  remediation : String
deriving DecidableEq, Repr

/-- The War Room component state touched by `handleTroubleshoot`. -/
structure WarRoomState where
  agentAnalyses : List AgentAnalysisUI
  judgeVerdict : Option UIVerdict
  errorMessage : Option String
deriving DecidableEq, Repr

/-- The frontend's conversion of one API agent result to its component
format (ChaosSimulator.tsx lines 479-487). -/
def toAgentAnalysis (a : ApiAgentResult) : AgentAnalysisUI :=
  { agent_name := a.agent_name
  , status := a.status
  , hypothesis := a.hypothesis
  , confidence := a.confidence_score
  , evidence := a.evidence_cited
  , reasoning := a.reasoning
  , timestamp := a.timestamp }

/-- The frontend's conversion of the API judge verdict to its component
format: the headline from `root_cause_headline`, the explanation from
`scenarios_logic`, the remediation from `remediation_plan`
(ChaosSimulator.tsx lines 492-496). -/
def toUIVerdict (v : ApiJudgeVerdict) : UIVerdict :=
  { rootCause := v.root_cause_headline
  , explanation := v.scenarios_logic
  , remediation := v.remediation_plan }

/-- The JSON field names of the judge verdict that `handleTroubleshoot`
reads (ChaosSimulator.tsx lines 493-495). -/
def warRoomVerdictFieldsRead : List String :=
  ["root_cause_headline", "scenarios_logic", "remediation_plan"]

/-- Modelled from the spec: the Verdict field names of §3. -/
def specVerdictFieldNames : List String :=
  ["root_cause_headline", "causal_explanation", "remediation_plan"]

/-- The state update `handleTroubleshoot` performs on a successful fetch:
`setError(null)` first, the mapped analyses always, then the verdict when
`judge_verdict` is present, else the judge error message when `judge_error`
is present (ChaosSimulator.tsx lines 456-499). -/
def applyTroubleshootResponse (s : WarRoomState) (r : TroubleshootResponse) : WarRoomState :=
  let s1 : WarRoomState :=
    { agentAnalyses := r.agent_results.map toAgentAnalysis
    , judgeVerdict := s.judgeVerdict
    , errorMessage := none }
  match r.judge_verdict with
  | some v => { s1 with judgeVerdict := some (toUIVerdict v) }
  | none =>
    match r.judge_error with
    | some e => { s1 with errorMessage := some ("Judge Analysis Failed: " ++ e) }
    | none => s1

/-- `hasActiveIncidents` of the War Room component: whether the currently
displayed incident list is non-empty (ChaosSimulator.tsx line 438). -/
def hasActiveIncidents (incidents : List Incident) : Bool :=
  decide (incidents.length > 0)

/-- The `force_all_agents` flag the frontend sends to `/api/troubleshoot`:
the negation of `hasActiveIncidents`, never a direct user input
(ChaosSimulator.tsx line 467). -/
def troubleshootForceAllAgents (incidents : List Incident) : Bool :=
  ! hasActiveIncidents incidents

/-- A mount or unmount of the War Room component. -/
inductive LifecycleEvent where
  | mount
  | unmount
deriving DecidableEq, Repr

/-- The polling timer owned by the War Room component: the endpoint the
registered `loadIncidents` callback fetches and the registered interval
period in milliseconds, when a timer is registered. -/
structure PollingState where
  pollEndpoint : Option String
  intervalMs : Option Nat
deriving DecidableEq, Repr

/-- The War Room effect on mount registers `setInterval(loadIncidents,
2000)` — `loadIncidents` fetches `/api/incidents/status` — and its cleanup
on unmount clears that interval (ChaosSimulator.tsx lines 374-377 and
392-394). -/
def applyLifecycle (_s : PollingState) : LifecycleEvent → PollingState
  | LifecycleEvent.mount =>
    { pollEndpoint := some "/api/incidents/status", intervalMs := some 2000 }
  | LifecycleEvent.unmount => { pollEndpoint := none, intervalMs := none }

/-- The polling state after a sequence of mounts and unmounts, starting
unmounted with no timer. -/
def runLifecycle (events : List LifecycleEvent) : PollingState :=
  events.foldl applyLifecycle { pollEndpoint := none, intervalMs := none }

/-- One step of the mounted/unmounted view of the lifecycle. -/
def mountedStep (_b : Bool) (e : LifecycleEvent) : Bool :=
  match e with
  | LifecycleEvent.mount => true
  | LifecycleEvent.unmount => false

/-- Whether the component is mounted after a sequence of lifecycle events. -/
def isMounted (events : List LifecycleEvent) : Bool :=
  events.foldl mountedStep false

/-- A stored Database incident with one log channel (the spec §8
"Classic DB Deadlock" trigger). -/
def exampleIncident : Incident :=
  { id := 1
  , category := Category.Database
  , alert_name := "DB-Deadlock-Critical"
  , severity := Severity.CRITICAL
  , logs := [("db", "deadlock detected")]
  , received_at := 100 }

/-- A store holding exactly the one Database incident. -/
def exampleStore : List Incident :=
  [exampleIncident]

/-- An oracle that always answers with a Critical hypothesis citing the
first bundle entry. -/
def exampleOracle : Category → Nat → OracleOutcome :=
  fun _ _ =>
    OracleOutcome.ok Status.Critical "zombie transaction holds the lock" 1 [0]
      "lock graph shows a cycle"

/-- An oracle whose Database specialist is unreachable on every attempt
while Network and Code succeed (the spec §8 degraded-resilience example). -/
def exampleDegradedOracle : Category → Nat → OracleOutcome :=
  fun c _ =>
    match c with
    | Category.Database => OracleOutcome.fail "oracle unreachable"
    | Category.Network =>
      OracleOutcome.ok Status.Warning "transient latency" 1 [] "no transport fault"
    | Category.Code =>
      OracleOutcome.ok Status.Critical "unhandled exception in handler" 1 []
        "stack trace present"

/-- A troubleshoot response carrying no verdict but a judge error. -/
def exampleJudgeErrorResponse : TroubleshootResponse :=
  { agent_results := []
  , judge_verdict := none
  , judge_error := some "model overloaded" }

/-- The War Room component state before any troubleshoot. -/
def exampleEmptyWarRoomState : WarRoomState :=
  { agentAnalyses := []
  , judgeVerdict := none
  , errorMessage := none }

/-- A Network finding at T+5, Critical (spec §8 first-mover example). -/
def exampleNetworkFinding : SpecialistFinding :=
  { agent_name := "Network Engineer Agent"
  , category := Category.Network
  , status := Status.Critical
  , hypothesis := "elevated latency"
  , confidence := 1
  , evidence := []
  , reasoning := "latency spike observed"
  , timestamp := 5 }

/-- A Database finding at T+2, Critical (spec §8 first-mover example). -/
def exampleDatabaseFinding : SpecialistFinding :=
  { agent_name := "DBA Agent"
  , category := Category.Database
  , status := Status.Critical
  , hypothesis := "lock wait timeout"
  , confidence := 1
  , evidence := []
  , reasoning := "lock contention observed"
  , timestamp := 2 }

/-- A Code finding at T+0, Critical (spec §8 first-mover example). -/
def exampleCodeFinding : SpecialistFinding :=
  { agent_name := "Code Auditor Agent"
  , category := Category.Code
  , status := Status.Critical
  , hypothesis := "unhandled JSONDecodeError"
  , confidence := 1
  , evidence := []
  , reasoning := "logic error observed"
  , timestamp := 0 }

/-- The first-mover example finding set of spec §8:
Network T+5 Critical, Database T+2 Critical, Code T+0 Critical. -/
def exampleFirstMover : List SpecialistFinding :=
  [exampleNetworkFinding, exampleDatabaseFinding, exampleCodeFinding]

/-- A Network finding at the same instant as `exampleTieCode`, Critical
(spec §8 precedence example). -/
def exampleTieNetwork : SpecialistFinding :=
  { exampleNetworkFinding with timestamp := 3 }

/-- A Code finding at the same instant as `exampleTieNetwork`, Critical
(spec §8 precedence example). -/
def exampleTieCode : SpecialistFinding :=
  { exampleCodeFinding with timestamp := 3 }

theorem firstMoverBetter_eq_true_iff (t0 : Nat) (f g : SpecialistFinding) :
    firstMoverBetter t0 f g = true ↔
      relOffset t0 f < relOffset t0 g ∨
        (relOffset t0 f = relOffset t0 g ∧
          precedenceRank f.category < precedenceRank g.category) := by
  unfold firstMoverBetter
  split_ifs with h1 h2 <;> simp_all

theorem firstMoverBetter_self (t0 : Nat) (f : SpecialistFinding) :
    firstMoverBetter t0 f f = false := by
  rw [Bool.eq_false_iff]
  intro h
  rw [firstMoverBetter_eq_true_iff] at h
  omega

theorem firstMoverBetter_trans (t0 : Nat) (f g h : SpecialistFinding)
    (hfg : firstMoverBetter t0 f g = true) (hgh : firstMoverBetter t0 g h = true) :
    firstMoverBetter t0 f h = true := by
  rw [firstMoverBetter_eq_true_iff] at hfg hgh ⊢
  rcases hfg with h1 | ⟨h1, h2⟩ <;> rcases hgh with h3 | ⟨h3, h4⟩ <;> omega

theorem firstMoverBetter_trans_of_not (t0 : Nat) (f g r : SpecialistFinding)
    (hgf : firstMoverBetter t0 g f = false) (hgr : firstMoverBetter t0 g r = true) :
    firstMoverBetter t0 f r = true := by
  rw [Bool.eq_false_iff] at hgf
  rw [firstMoverBetter_eq_true_iff] at hgr ⊢
  by_contra hcon
  apply hgf
  rw [firstMoverBetter_eq_true_iff]
  rcases hgr with h1 | ⟨h1, h2⟩ <;> omega

theorem pickFold_spec (t0 : Nat) (fs : List SpecialistFinding) :
    ∀ a : SpecialistFinding,
      fs.foldl (fun best g => if firstMoverBetter t0 g best then g else best) a ∈ a :: fs
      ∧ ∀ h ∈ a :: fs,
          firstMoverBetter t0 h
            (fs.foldl (fun best g => if firstMoverBetter t0 g best then g else best) a)
            = false := by
  induction fs with
  | nil =>
    intro a
    refine ⟨by simp, ?_⟩
    intro h hh
    simp only [List.foldl_nil, List.mem_singleton] at hh ⊢
    subst hh
    exact firstMoverBetter_self t0 h
  | cons g gs ih =>
    intro a
    simp only [List.foldl_cons]
    by_cases hg : firstMoverBetter t0 g a = true
    · rw [if_pos hg]
      obtain ⟨hmem, hmin⟩ := ih g
      refine ⟨?_, ?_⟩
      · rcases List.mem_cons.mp hmem with h | h
        · rw [h]; simp
        · simp [List.mem_cons, h]
      · intro h hh
        rcases List.mem_cons.mp hh with rfl | hh'
        · rw [Bool.eq_false_iff]
          intro har
          have hgr := firstMoverBetter_trans t0 g h _ hg har
          have := hmin g (List.mem_cons_self _ _)
          rw [hgr] at this
          exact Bool.true_eq_false.mp this
        · exact hmin h hh'
    · rw [if_neg hg]
      obtain ⟨hmem, hmin⟩ := ih a
      refine ⟨?_, ?_⟩
      · rcases List.mem_cons.mp hmem with h | h
        · rw [h]; simp
        · simp [List.mem_cons, h]
      · intro h hh
        rcases List.mem_cons.mp hh with rfl | hh'
        · exact hmin h (List.mem_cons_self _ _)
        · rcases List.mem_cons.mp hh' with rfl | hh''
          · rw [Bool.eq_false_iff]
            intro har
            have haA := hmin a (List.mem_cons_self _ _)
            have := firstMoverBetter_trans_of_not t0 a h _ (Bool.eq_false_iff.mpr hg) har
            rw [this] at haA
            exact Bool.true_eq_false.mp haA
          · exact hmin h (List.mem_cons_of_mem _ hh'')

theorem pickRootCause_spec (t0 : Nat) (l : List SpecialistFinding)
    (b : SpecialistFinding) (hb : pickRootCause t0 l = some b) :
    b ∈ l ∧ ∀ h ∈ l, firstMoverBetter t0 h b = false := by
  cases l with
  | nil => simp [pickRootCause] at hb
  | cons f fs =>
    simp only [pickRootCause, Option.some.injEq] at hb
    obtain ⟨hmem, hmin⟩ := pickFold_spec t0 fs f
    rw [hb] at hmem hmin
    exact ⟨hmem, hmin⟩

theorem pickRootCause_isSome (t0 : Nat) (l : List SpecialistFinding) (hl : l ≠ []) :
    ∃ b, pickRootCause t0 l = some b := by
  cases l with
  | nil => exact absurd rfl hl
  | cons f fs => exact ⟨_, rfl⟩

theorem mem_criticalFindings_iff (fs : List SpecialistFinding) (f : SpecialistFinding) :
    f ∈ criticalFindings fs ↔ f ∈ fs ∧ f.status = Status.Critical := by
  simp [criticalFindings]

theorem relOffset_le_of_not_better (t0 : Nat) (f b : SpecialistFinding)
    (h : firstMoverBetter t0 f b = false) : relOffset t0 b ≤ relOffset t0 f := by
  rw [Bool.eq_false_iff] at h
  by_contra hlt
  exact h (by rw [firstMoverBetter_eq_true_iff]; omega)

/-- C1: for every set of specialist findings containing a Critical finding,
the judge's chosen root cause is a Critical finding whose relative offset
(from the earliest observed timestamp across all findings) is smallest among
all Critical findings; in particular, on the Network T+5 / Database T+2 /
Code T+0 all-Critical example, the chosen root cause is the Code finding. -/
theorem judge_selects_earliest_critical :
    (∀ (fs : List SpecialistFinding) (f : SpecialistFinding), f ∈ fs →
        f.status = Status.Critical →
        ∃ g, rootCauseOf fs = some g ∧ g ∈ fs ∧ g.status = Status.Critical ∧
          ∀ h ∈ fs, h.status = Status.Critical →
            relOffset (earliestTimestamp fs) g ≤ relOffset (earliestTimestamp fs) h)
    ∧ (rootCauseOf exampleFirstMover).map SpecialistFinding.category
        = some Category.Code := by
  constructor
  · intro fs f hf hc
    have hfc : f ∈ criticalFindings fs := (mem_criticalFindings_iff fs f).mpr ⟨hf, hc⟩
    have hne : criticalFindings fs ≠ [] := List.ne_nil_of_mem hfc
    obtain ⟨b, hb⟩ := pickRootCause_isSome (earliestTimestamp fs) _ hne
    obtain ⟨hbmem, hbmin⟩ := pickRootCause_spec _ _ _ hb
    obtain ⟨hbfs, hbstat⟩ := (mem_criticalFindings_iff fs b).mp hbmem
    refine ⟨b, hb, hbfs, hbstat, ?_⟩
    intro h hh hcrit
    exact relOffset_le_of_not_better _ _ _
      (hbmin h ((mem_criticalFindings_iff fs h).mpr ⟨hh, hcrit⟩))
  · rfl

/-- Witness for C1 at the spec §8 first-mover example. -/
theorem judge_selects_earliest_critical_witness :
    ∃ g, rootCauseOf exampleFirstMover = some g ∧ g ∈ exampleFirstMover ∧
      g.status = Status.Critical ∧
      ∀ h ∈ exampleFirstMover, h.status = Status.Critical →
        relOffset (earliestTimestamp exampleFirstMover) g ≤
          relOffset (earliestTimestamp exampleFirstMover) h :=
  judge_selects_earliest_critical.1 exampleFirstMover exampleCodeFinding
    (by simp [exampleFirstMover]) rfl

/-- C2: for every pair of Critical findings at exactly the same instant
(hence the same relative offset), the judge selects the one whose category
is earlier in the fixed precedence order Code > Database > Network,
whichever order the pair is presented in; in particular, a Code/Critical
and a Network/Critical finding with identical offset yield Code. -/
theorem judge_precedence_breaks_exact_ties :
    (∀ f g : SpecialistFinding, f.status = Status.Critical →
        g.status = Status.Critical → f.timestamp = g.timestamp →
        precedenceRank f.category < precedenceRank g.category →
        rootCauseOf [f, g] = some f ∧ rootCauseOf [g, f] = some f)
    ∧ rootCauseOf [exampleTieCode, exampleTieNetwork] = some exampleTieCode
    ∧ rootCauseOf [exampleTieNetwork, exampleTieCode] = some exampleTieCode := by
  refine ⟨?_, rfl, rfl⟩
  intro f g hf hg ht hrank
  have hcf : criticalFindings [f, g] = [f, g] := by simp [criticalFindings, hf, hg]
  have hcg : criticalFindings [g, f] = [g, f] := by simp [criticalFindings, hf, hg]
  have hbetter : firstMoverBetter (earliestTimestamp [f, g]) g f = false := by
    rw [Bool.eq_false_iff]
    intro hbt
    rw [firstMoverBetter_eq_true_iff] at hbt
    unfold relOffset at hbt
    omega
  have hbetter' : firstMoverBetter (earliestTimestamp [g, f]) f g = true := by
    rw [firstMoverBetter_eq_true_iff]
    right
    unfold relOffset
    exact ⟨by omega, hrank⟩
  constructor
  · show pickRootCause (earliestTimestamp [f, g]) (criticalFindings [f, g]) = some f
    rw [hcf]
    simp [pickRootCause, hbetter]
  · show pickRootCause (earliestTimestamp [g, f]) (criticalFindings [g, f]) = some f
    rw [hcg]
    simp [pickRootCause, hbetter']

/-- Witness for C2 at the spec §8 precedence example: Code/Critical and
Network/Critical at the same instant, in both presentation orders. -/
theorem judge_precedence_breaks_exact_ties_witness :
    rootCauseOf [exampleTieCode, exampleTieNetwork] = some exampleTieCode ∧
      rootCauseOf [exampleTieNetwork, exampleTieCode] = some exampleTieCode :=
  judge_precedence_breaks_exact_ties.1 exampleTieCode exampleTieNetwork
    rfl rfl rfl (by decide)

/-- C3: `synthesize` is deterministic — on equal finding lists it yields the
identical verdict (hence identical `root_cause_headline`) and the identical
root-cause category; tie-breaking involves no randomness. -/
theorem synthesize_deterministic :
    ∀ fs gs : List SpecialistFinding, fs = gs →
      synthesize fs = synthesize gs ∧
      (rootCauseOf fs).map SpecialistFinding.category
        = (rootCauseOf gs).map SpecialistFinding.category := by
  intro fs gs h
  subst h
  exact ⟨rfl, rfl⟩

/-- Witness for C3 at the spec §8 first-mover example. -/
theorem synthesize_deterministic_witness :
    synthesize exampleFirstMover = synthesize exampleFirstMover ∧
      (rootCauseOf exampleFirstMover).map SpecialistFinding.category
        = (rootCauseOf exampleFirstMover).map SpecialistFinding.category :=
  synthesize_deterministic exampleFirstMover exampleFirstMover rfl

/-- C4 counterexample: the presentation layer does not consume the verdict
through the spec's three field names — `handleTroubleshoot` reads the
explanation under `scenarios_logic`, not `causal_explanation`
(ChaosSimulator.tsx line 494). -/
theorem warRoom_does_not_read_spec_verdict_fields :
    warRoomVerdictFieldsRead ≠ specVerdictFieldNames := by
  decide

/-- C4 (amended): a Verdict consists of exactly the fields
`root_cause_headline`, `causal_explanation`, `remediation_plan`, while the
presentation layer reads the headline and remediation under those names but
the explanation under the field name `scenarios_logic`. -/
theorem verdict_fields_and_frontend_consumption :
    (∀ v w : Verdict, v.root_cause_headline = w.root_cause_headline →
        v.causal_explanation = w.causal_explanation →
        v.remediation_plan = w.remediation_plan → v = w)
    ∧ warRoomVerdictFieldsRead
        = ["root_cause_headline", "scenarios_logic", "remediation_plan"]
    ∧ ∀ a : ApiJudgeVerdict,
        (toUIVerdict a).rootCause = a.root_cause_headline ∧
        (toUIVerdict a).explanation = a.scenarios_logic ∧
        (toUIVerdict a).remediation = a.remediation_plan := by
  refine ⟨?_, rfl, ?_⟩
  · intro v w h1 h2 h3
    cases v
    cases w
    simp_all
  · intro a
    exact ⟨rfl, rfl, rfl⟩

/-- Witness for the amended C4 at a concrete verdict. -/
theorem verdict_fields_and_frontend_consumption_witness :
    ({ root_cause_headline := "h", causal_explanation := "e"
     , remediation_plan := "r" } : Verdict)
      = { root_cause_headline := "h", causal_explanation := "e"
        , remediation_plan := "r" } :=
  verdict_fields_and_frontend_consumption.1 _ _ rfl rfl rfl

theorem findingFor_category (store : List Incident)
    (oracle : Category → Nat → OracleOutcome) (budget now : Nat) (c : Category) :
    (findingFor store oracle budget now c).category = c := by
  unfold findingFor
  cases retryOracle (oracle c) 0 budget <;> rfl

theorem findingFor_evidence_sub (store : List Incident)
    (oracle : Category → Nat → OracleOutcome) (budget now : Nat) (c : Category) :
    ∀ s ∈ (findingFor store oracle budget now c).evidence,
      s ∈ evidenceBundle store c := by
  intro s hs
  unfold findingFor at hs
  split at hs
  · simp only [List.mem_filterMap] at hs
    obtain ⟨idx, _, hget⟩ := hs
    exact List.get?_mem hget
  · simp at hs

theorem mem_evidenceBundle_iff (store : List Incident) (c : Category) (s : String) :
    s ∈ evidenceBundle store c ↔
      ∃ i ∈ store, i.category = c ∧ s ∈ incidentLogTexts i := by
  simp only [evidenceBundle, activeByCategory, List.mem_flatMap, List.mem_filter,
    decide_eq_true_eq]
  constructor
  · rintro ⟨i, ⟨hi, hc⟩, hs⟩
    exact ⟨i, hi, hc, hs⟩
  · rintro ⟨i, hi, hc, hs⟩
    exact ⟨i, ⟨hi, hc⟩, hs⟩

/-- C5: every finding a dispatch round produces for a category cites only
log texts of incidents of that same category, because the store's category
lookup returns only incidents of that category. -/
theorem finding_evidence_isolated_to_category :
    ∀ (store : List Incident) (oracle : Category → Nat → OracleOutcome)
      (budget now : Nat) (forceAll : Bool),
      ∀ f ∈ analyze store oracle budget forceAll now,
        ∀ s ∈ f.evidence,
          ∃ i ∈ store, i.category = f.category ∧ s ∈ incidentLogTexts i := by
  intro store oracle budget now forceAll f hf s hs
  rw [analyze, List.mem_map] at hf
  obtain ⟨c, _, rfl⟩ := hf
  rw [findingFor_category]
  exact (mem_evidenceBundle_iff store c s).mp
    (findingFor_evidence_sub store oracle budget now c s hs)

/-- Witness for C5: a dispatch over a one-incident Database store with an
oracle citing the first bundle entry. -/
theorem finding_evidence_isolated_to_category_witness :
    ∃ i ∈ exampleStore,
      i.category = (findingFor exampleStore exampleOracle 1 10 Category.Database).category
      ∧ "deadlock detected" ∈ incidentLogTexts i :=
  finding_evidence_isolated_to_category exampleStore exampleOracle 1 10 false
    (findingFor exampleStore exampleOracle 1 10 Category.Database)
    (List.mem_singleton.mpr rfl) "deadlock detected" (List.mem_singleton.mpr rfl)

/-- C6: a dispatch round returns one finding per category in scope even
when a category's specialist call exhausts its retry budget: the failed
category's finding is degraded to status unknown with confidence 0, and the
judge still produces a verdict from the returned findings — one
specialist's failure never aborts the dispatch. -/
theorem analyze_degrades_failed_specialist_without_abort :
    ∀ (store : List Incident) (oracle : Category → Nat → OracleOutcome)
      (budget now : Nat) (forceAll : Bool),
      (analyze store oracle budget forceAll now).length
          = (scopeFor store forceAll).length
      ∧ (∀ c ∈ scopeFor store forceAll,
          ∃ f ∈ analyze store oracle budget forceAll now, f.category = c)
      ∧ (∀ c ∈ scopeFor store forceAll, ∀ d,
          retryOracle (oracle c) 0 budget = OracleOutcome.fail d →
          ∃ f ∈ analyze store oracle budget forceAll now,
            f.category = c ∧ f.status = Status.Unknown ∧ f.confidence = 0)
      ∧ (¬ scopeFor store forceAll = [] →
          ∃ v, synthesize (analyze store oracle budget forceAll now) = Except.ok v) := by
  intro store oracle budget now forceAll
  refine ⟨by simp [analyze], ?_, ?_, ?_⟩
  · intro c hc
    exact ⟨findingFor store oracle budget now c,
      List.mem_map_of_mem _ hc, findingFor_category store oracle budget now c⟩
  · intro c hc d hfail
    refine ⟨findingFor store oracle budget now c, List.mem_map_of_mem _ hc,
      findingFor_category store oracle budget now c, ?_, ?_⟩
    · unfold findingFor
      rw [hfail]
    · unfold findingFor
      rw [hfail]
  · intro hne
    rcases hA : analyze store oracle budget forceAll now with _ | ⟨f, fs⟩
    · exact absurd (by simpa [analyze, List.map_eq_nil_iff] using hA) hne
    · exact ⟨_, rfl⟩

/-- Witness for C6: forced dispatch with a Database specialist that fails on
every attempt while Network and Code succeed. -/
theorem analyze_degrades_failed_specialist_witness :
    (∃ f ∈ analyze [] exampleDegradedOracle 2 true 10,
        f.category = Category.Database ∧ f.status = Status.Unknown ∧ f.confidence = 0)
    ∧ ∃ v, synthesize (analyze [] exampleDegradedOracle 2 true 10) = Except.ok v :=
  ⟨(analyze_degrades_failed_specialist_without_abort [] exampleDegradedOracle 2 10 true).2.2.1
      Category.Database (by decide) "retry budget exhausted" rfl,
   (analyze_degrades_failed_specialist_without_abort [] exampleDegradedOracle 2 10 true).2.2.2
      (by decide)⟩

/-- C7: `synthesize` fails with `InsufficientEvidenceError` exactly when
given zero findings, and the frontend surfaces a judge error as a distinct
error message while keeping the returned findings rather than replacing
them. -/
theorem synthesize_insufficient_evidence_iff_empty :
    (∀ fs : List SpecialistFinding,
        synthesize fs = Except.error JudgeError.InsufficientEvidenceError ↔ fs = [])
    ∧ ∀ (s : WarRoomState) (r : TroubleshootResponse) (e : String),
        r.judge_verdict = none → r.judge_error = some e →
        (applyTroubleshootResponse s r).agentAnalyses
            = r.agent_results.map toAgentAnalysis
        ∧ (applyTroubleshootResponse s r).errorMessage
            = some ("Judge Analysis Failed: " ++ e) := by
  constructor
  · intro fs
    cases fs with
    | nil => simp [synthesize]
    | cons f fs' => simp [synthesize]
  · intro s r e hv he
    unfold applyTroubleshootResponse
    rw [hv, he]
    exact ⟨rfl, rfl⟩

/-- Witness for C7: the empty finding list and a response carrying a judge
error without a verdict. -/
theorem synthesize_insufficient_evidence_witness :
    (synthesize [] = Except.error JudgeError.InsufficientEvidenceError ↔
        ([] : List SpecialistFinding) = [])
    ∧ ((applyTroubleshootResponse exampleEmptyWarRoomState
          exampleJudgeErrorResponse).agentAnalyses
        = exampleJudgeErrorResponse.agent_results.map toAgentAnalysis
      ∧ (applyTroubleshootResponse exampleEmptyWarRoomState
          exampleJudgeErrorResponse).errorMessage
        = some ("Judge Analysis Failed: " ++ "model overloaded")) :=
  ⟨synthesize_insufficient_evidence_iff_empty.1 [],
   synthesize_insufficient_evidence_iff_empty.2 exampleEmptyWarRoomState
     exampleJudgeErrorResponse "model overloaded" rfl rfl⟩

theorem activeByCategory_clearCategory_other (store : List Incident) (c c' : Category)
    (h : ¬ c' = c) :
    activeByCategory (clearCategory store c).2 c' = activeByCategory store c' := by
  unfold clearCategory activeByCategory
  rw [List.filter_filter]
  apply List.filter_congr
  intro i _
  by_cases hi : i.category = c'
  · simp [hi]
    exact h
  · simp [hi]

theorem activeByCategory_clearCategory_self (store : List Incident) (c : Category) :
    activeByCategory (clearCategory store c).2 c = [] := by
  unfold clearCategory activeByCategory
  rw [List.filter_filter, List.filter_eq_nil_iff]
  intro i _
  simp

theorem clearCategory_state_idem (store : List Incident) (c : Category) :
    (clearCategory (clearCategory store c).2 c).2 = (clearCategory store c).2 := by
  show ((store.filter (fun i => ¬ i.category = c)).filter (fun i => ¬ i.category = c))
      = store.filter (fun i => ¬ i.category = c)
  rw [List.filter_filter]
  apply List.filter_congr
  intro i _
  by_cases hic : i.category = c <;> simp [hic]

/-- C8: clearing a category that holds no incidents returns count 0 rather
than an error and leaves the store unchanged; clearing never touches other
categories; `clearCategory` and `clearAll` are idempotent and return the
number of incidents cleared. -/
theorem clear_operations_idempotent_and_counted :
    ∀ (store : List Incident) (c : Category),
      (activeByCategory store c = [] →
          (clearCategory store c).1 = 0 ∧ (clearCategory store c).2 = store)
      ∧ (∀ c', ¬ c' = c →
          activeByCategory (clearCategory store c).2 c' = activeByCategory store c')
      ∧ (clearCategory (clearCategory store c).2 c).1 = 0
      ∧ (clearCategory (clearCategory store c).2 c).2 = (clearCategory store c).2
      ∧ (clearAll (clearAll store).2).1 = 0
      ∧ (clearAll (clearAll store).2).2 = (clearAll store).2
      ∧ (clearCategory store c).1 = (activeByCategory store c).length
      ∧ (clearAll store).1 = store.length := by
  intro store c
  refine ⟨?_, ?_, ?_, clearCategory_state_idem store c, rfl, rfl, rfl, rfl⟩
  · intro hempty
    constructor
    · simp [clearCategory, hempty]
    · show store.filter (fun i => ¬ i.category = c) = store
      rw [List.filter_eq_self]
      intro i hi
      have : ¬ i.category = c := by
        intro hic
        have : i ∈ activeByCategory store c := by
          simp [activeByCategory, List.mem_filter, hi, hic]
        rw [hempty] at this
        exact absurd this (List.not_mem_nil i)
      simpa using this
  · intro c' hc'
    exact activeByCategory_clearCategory_other store c c' hc'
  · show (activeByCategory (clearCategory store c).2 c).length = 0
    rw [activeByCategory_clearCategory_self store c]
    rfl

/-- Witness for C8: clearing the empty Network category of the one-Database-
incident store returns 0, keeps the store intact, and keeps the Database
incidents untouched. -/
theorem clear_operations_witness :
    ((clearCategory exampleStore Category.Network).1 = 0
      ∧ (clearCategory exampleStore Category.Network).2 = exampleStore)
    ∧ activeByCategory (clearCategory exampleStore Category.Network).2 Category.Database
        = activeByCategory exampleStore Category.Database :=
  ⟨(clear_operations_idempotent_and_counted exampleStore Category.Network).1 rfl,
   (clear_operations_idempotent_and_counted exampleStore Category.Network).2.1
     Category.Database (by decide)⟩

theorem lifecycle_polling_inv (events : List LifecycleEvent) :
    ∀ (s : PollingState) (b : Bool),
      s = (if b = true
        then { pollEndpoint := some "/api/incidents/status", intervalMs := some 2000 }
        else { pollEndpoint := none, intervalMs := none }) →
      List.foldl applyLifecycle s events
        = (if List.foldl mountedStep b events = true
            then { pollEndpoint := some "/api/incidents/status", intervalMs := some 2000 }
            else { pollEndpoint := none, intervalMs := none }) := by
  induction events with
  | nil =>
    intro s b h
    simpa using h
  | cons e es ih =>
    intro s b _
    simp only [List.foldl_cons]
    cases e
    · exact ih _ true rfl
    · exact ih _ false rfl

/-- C9: for every mount/unmount history of the War Room view, the
`loadIncidents` poller against `/api/incidents/status` is registered exactly
while the view is mounted, and its interval is the fixed 2000 ms. -/
theorem warRoom_polls_every_two_seconds_while_mounted :
    ∀ events : List LifecycleEvent,
      runLifecycle events
        = (if isMounted events = true
            then { pollEndpoint := some "/api/incidents/status", intervalMs := some 2000 }
            else { pollEndpoint := none, intervalMs := none }) := by
  intro events
  exact lifecycle_polling_inv events _ false rfl

/-- Witness for C9: after a mount the 2-second poller is registered; after
the subsequent unmount it is gone. -/
theorem warRoom_polls_witness :
    runLifecycle [LifecycleEvent.mount]
      = { pollEndpoint := some "/api/incidents/status", intervalMs := some 2000 }
    ∧ runLifecycle [LifecycleEvent.mount, LifecycleEvent.unmount]
      = { pollEndpoint := none, intervalMs := none } :=
  ⟨warRoom_polls_every_two_seconds_while_mounted [LifecycleEvent.mount],
   warRoom_polls_every_two_seconds_while_mounted
     [LifecycleEvent.mount, LifecycleEvent.unmount]⟩

/-- C10: the frontend sets `force_all_agents` to true exactly when the
displayed incident list is empty, and to false whenever at least one
incident is active; the flag is computed from the incident list alone. -/
theorem forceAllAgents_iff_no_active_incidents :
    ∀ incidents : List Incident,
      (troubleshootForceAllAgents incidents = true ↔ incidents = [])
      ∧ (troubleshootForceAllAgents incidents = false ↔ ¬ incidents = []) := by
  intro incidents
  cases incidents with
  | nil => simp [troubleshootForceAllAgents, hasActiveIncidents]
  | cons i is => simp [troubleshootForceAllAgents, hasActiveIncidents]

/-- Witness for C10: the empty incident list forces all agents; the
one-incident list does not. -/
theorem forceAllAgents_witness :
    (troubleshootForceAllAgents [] = true ↔ ([] : List Incident) = [])
    ∧ (troubleshootForceAllAgents exampleStore = false ↔ ¬ exampleStore = []) :=
  ⟨(forceAllAgents_iff_no_active_incidents []).1,
   (forceAllAgents_iff_no_active_incidents exampleStore).2⟩
